import Mathlib

/-!
Verification of the DanceMode repository's target/choreography engine.

The definitions below are a shallow embedding of the Python sources:
* dance_targets.py : DanceMove, DanceSequence, DanceTargetManager
  (start_sequence, get_current_move, get_target_positions, check_hand_hit,
  update, _next_move, get_time_remaining, get_time_progress,
  is_sequence_complete);
* game.py : Target, DanceModeGame._update_targets and the per-pair hit test
  of DanceModeGame._check_collisions.

Real-valued quantities (Python floats used as idealized reals) are embedded
as rationals so that every definition is executable.  The only place the
source uses an operation that is not rational is math.sqrt inside the two
hit tests; since both tests immediately compare the square root against a
nonnegative radius, the embedding stores the equivalent squared comparison
(sqrt d <= r iff d <= r * r for r >= 0, and sqrt d < r iff d < r * r for
r > 0); the correspondence with the genuine Euclidean distance is stated
and proved over the reals in the hit-test theorems below.
-/

namespace DanceMode

/-- Events dictionary returned by DanceTargetManager.update
(dance_targets.py line 255). -/
structure Events where
  hit : Bool
  miss : Bool
  complete : Bool
  sequence_complete : Bool
  pop : Bool
  deriving Repr, DecidableEq

/-- The all-false events record that update starts from. -/
def noEvents : Events := ⟨false, false, false, false, false⟩

/-- A single dance move (dance_targets.py, dataclass DanceMove).
Hand targets are normalized screen fractions; none means the hand is not
tracked for this move. -/
structure DanceMove where
  name : String
  left_hand_target : Option (ℚ × ℚ) := none
  right_hand_target : Option (ℚ × ℚ) := none
  duration : ℚ := 2
  description : String := ""
  deriving Repr, DecidableEq

/-- A choreographed sequence (dance_targets.py, dataclass DanceSequence). -/
structure DanceSequence where
  name : String
  moves : List DanceMove
  tempo_bpm : ℤ := 120
  difficulty : ℤ := 1
  deriving Repr, DecidableEq

/-- Mutable state of DanceTargetManager (dance_targets.py, __init__,
lines 153-189).  Every instance attribute assigned in __init__ is a field. -/
structure DanceTargetManager where
  screen_width : ℤ
  screen_height : ℤ
  current_sequence : Option DanceSequence
  current_move_index : ℕ
  move_timer : ℚ
  move_timeout : ℚ
  hit_radius : ℚ
  left_hand_hit : Bool
  right_hand_hit : Bool
  left_hit_time : ℚ
  right_hit_time : ℚ
  min_display_time : ℚ
  celebration_time : ℚ
  celebrating : Bool
  celebration_timer : ℚ
  target_pulse : ℚ
  success_flash : ℚ
  miss_flash : ℚ
  moves_completed : ℕ
  moves_missed : ℕ
  current_streak : ℕ
  best_streak : ℕ
  loop_count : ℕ
  max_loops : ℕ
  deriving Repr, DecidableEq

/-- DanceTargetManager.__init__ (dance_targets.py lines 153-189): the
freshly constructed manager with all documented default values. -/
def initState (screen_width screen_height : ℤ) : DanceTargetManager where
  screen_width := screen_width
  screen_height := screen_height
  current_sequence := none
  current_move_index := 0
  move_timer := 0
  move_timeout := 5
  hit_radius := 80
  left_hand_hit := false
  right_hand_hit := false
  left_hit_time := 0
  right_hit_time := 0
  min_display_time := 3
  celebration_time := 1
  celebrating := false
  celebration_timer := 0
  target_pulse := 0
  success_flash := 0
  miss_flash := 0
  moves_completed := 0
  moves_missed := 0
  current_streak := 0
  best_streak := 0
  loop_count := 0
  max_loops := 2

/-- DanceTargetManager.start_sequence (dance_targets.py lines 191-201):
installs the sequence and resets exactly the nine attributes the source
assigns; every other field keeps its previous value. -/
def startSequence (s : DanceTargetManager) (seq : DanceSequence) :
    DanceTargetManager :=
  { s with
    current_sequence := some seq
    current_move_index := 0
    move_timer := 0
    left_hand_hit := false
    right_hand_hit := false
    moves_completed := 0
    moves_missed := 0
    current_streak := 0
    loop_count := 0 }

/-- Python int() truncation toward zero of a rational (used by
get_target_positions when scaling normalized coordinates to pixels);
Int.tdiv is division truncating toward zero, matching Python int(). -/
def truncQ (q : ℚ) : ℤ := Int.tdiv q.num q.den

/-- DanceTargetManager.get_current_move (dance_targets.py lines 208-212):
the move at the current index when a sequence is loaded and the index is in
range, none otherwise. -/
def getCurrentMove (s : DanceTargetManager) : Option DanceMove :=
  match s.current_sequence with
  | some seq => seq.moves[s.current_move_index]?
  | none => none

/-- Pixel positions of the two hand targets of a move
(body of DanceTargetManager.get_target_positions, lines 214-235):
each defined normalized target is scaled by the screen size and truncated
with int(). -/
def movePositions (w h : ℤ) (move : Option DanceMove) :
    Option (ℤ × ℤ) × Option (ℤ × ℤ) :=
  match move with
  | none => (none, none)
  | some m =>
      (m.left_hand_target.map (fun p => (truncQ (p.1 * w), truncQ (p.2 * h))),
       m.right_hand_target.map (fun p => (truncQ (p.1 * w), truncQ (p.2 * h))))

/-- DanceTargetManager.get_target_positions (dance_targets.py
lines 214-235). -/
def getTargetPositions (s : DanceTargetManager) :
    Option (ℤ × ℤ) × Option (ℤ × ℤ) :=
  movePositions s.screen_width s.screen_height (getCurrentMove s)

/-- DanceTargetManager.check_hand_hit (dance_targets.py lines 237-246):
true when both positions are present and the Euclidean distance from the
hand to the target is at most hit_radius.  The source computes
math.sqrt(dx*dx + dy*dy) <= hit_radius; the embedding stores the
equivalent squared comparison to stay executable (see the hit-test theorem
for the proved equivalence with the real square root). -/
def checkHandHit (hit_radius : ℚ) (hand_pos : Option (ℚ × ℚ))
    (target_pos : Option (ℤ × ℤ)) : Bool :=
  match hand_pos, target_pos with
  | some hp, some tp =>
      let dx : ℚ := hp.1 - (tp.1 : ℚ)
      let dy : ℚ := hp.2 - (tp.2 : ℚ)
      decide (dx * dx + dy * dy ≤ hit_radius * hit_radius)
  | _, _ => false

/-- DanceTargetManager._next_move (dance_targets.py lines 331-340). -/
def nextMove (s : DanceTargetManager) : DanceTargetManager :=
  { s with
    current_move_index := s.current_move_index + 1
    move_timer := 0
    left_hand_hit := false
    right_hand_hit := false
    left_hit_time := 0
    right_hit_time := 0
    celebrating := false
    celebration_timer := 0 }

/-- End-of-update sequence-completion check (dance_targets.py
lines 320-327): when the index has reached the sequence length the loop
counter is incremented; at the loop limit the sequence_complete event is
set (the index is not reset), otherwise the index wraps to 0. -/
def seqCheck (seq : DanceSequence) (s : DanceTargetManager) (ev : Events) :
    DanceTargetManager × Events :=
  if seq.moves.length ≤ s.current_move_index then
    if s.max_loops ≤ s.loop_count + 1 then
      ({ s with loop_count := s.loop_count + 1 },
        { ev with sequence_complete := true })
    else
      ({ s with loop_count := s.loop_count + 1, current_move_index := 0 }, ev)
  else
    (s, ev)

/-- Timer block at the top of update (dance_targets.py lines 260-268):
visual-effect timers decay and the move timer advances by dt. -/
def tickTimers (s : DanceTargetManager) (dt : ℚ) : DanceTargetManager :=
  { s with
    target_pulse := s.target_pulse + dt * 3
    success_flash := if 0 < s.success_flash then s.success_flash - dt * 2
                     else s.success_flash
    miss_flash := if 0 < s.miss_flash then s.miss_flash - dt * 2
                  else s.miss_flash
    move_timer := s.move_timer + dt }

/-- Celebration branch of update (dance_targets.py lines 270-277): the
celebration timer advances; when it reaches the celebration duration the
manager advances via _next_move and reports the complete event, otherwise
nothing is reported.  This branch returns early: the sequence-completion
check does not run on it. -/
def celebrate (s : DanceTargetManager) (dt : ℚ) : DanceTargetManager × Events :=
  if s.celebration_time ≤ s.celebration_timer + dt then
    (nextMove { s with celebration_timer := s.celebration_timer + dt },
      { noEvents with complete := true })
  else
    ({ s with celebration_timer := s.celebration_timer + dt }, noEvents)

/-- Left-hand hit check of update (dance_targets.py lines 283-287):
edge-triggered on the left_hand_hit flag; on a fresh hit the flag and hit
time are recorded and the pop event is requested (second component). -/
def applyLeftHit (s : DanceTargetManager) (hand : Option (ℚ × ℚ))
    (target : Option (ℤ × ℤ)) : DanceTargetManager × Bool :=
  if target.isSome && !s.left_hand_hit && checkHandHit s.hit_radius hand target
  then ({ s with left_hand_hit := true, left_hit_time := s.move_timer }, true)
  else (s, false)

/-- Right-hand hit check of update (dance_targets.py lines 289-293). -/
def applyRightHit (s : DanceTargetManager) (hand : Option (ℚ × ℚ))
    (target : Option (ℤ × ℤ)) : DanceTargetManager × Bool :=
  if target.isSome && !s.right_hand_hit && checkHandHit s.hit_radius hand target
  then ({ s with right_hand_hit := true, right_hit_time := s.move_timer }, true)
  else (s, false)

/-- Satisfied/timeout decision of update (dance_targets.py lines 295-318)
followed by the sequence-completion check (lines 320-327), for the
post-hit-detection state s3. -/
def resolveMove (seq : DanceSequence) (s3 : DanceTargetManager)
    (popped : Bool) (left_target right_target : Option (ℤ × ℤ)) :
    DanceTargetManager × Events :=
  if (left_target.isNone || s3.left_hand_hit) &&
      (right_target.isNone || s3.right_hand_hit) &&
      decide (s3.min_display_time ≤ s3.move_timer) then
    seqCheck seq
      { s3 with
        moves_completed := s3.moves_completed + 1
        current_streak := s3.current_streak + 1
        best_streak := max s3.best_streak (s3.current_streak + 1)
        success_flash := 1
        celebrating := true
        celebration_timer := 0 }
      { noEvents with hit := true, pop := popped }
  else if s3.move_timeout ≤ s3.move_timer then
    seqCheck seq
      (nextMove
        { s3 with
          moves_missed := s3.moves_missed + 1
          current_streak := 0
          miss_flash := 1 })
      { noEvents with miss := true, pop := popped }
  else
    seqCheck seq s3 { noEvents with pop := popped }

/-- Pixel targets of the current move of a loaded sequence, as read inside
update from get_target_positions. -/
def targetsOf (s : DanceTargetManager) (seq : DanceSequence) :
    Option (ℤ × ℤ) × Option (ℤ × ℤ) :=
  movePositions s.screen_width s.screen_height seq.moves[s.current_move_index]?

/-- State after the two edge-triggered hand hit checks have run on the
ticked state (dance_targets.py lines 283-293). -/
def hitPhase (s : DanceTargetManager) (dt : ℚ) (lh rh : Option (ℚ × ℚ))
    (t1 t2 : Option (ℤ × ℤ)) : DanceTargetManager :=
  (applyRightHit (applyLeftHit (tickTimers s dt) lh t1).1 rh t2).1

/-- Whether either hand hit check newly fired this tick (the pop event of
dance_targets.py lines 287 and 293). -/
def hitPhasePop (s : DanceTargetManager) (dt : ℚ) (lh rh : Option (ℚ × ℚ))
    (t1 t2 : Option (ℤ × ℤ)) : Bool :=
  (applyLeftHit (tickTimers s dt) lh t1).2 ||
    (applyRightHit (applyLeftHit (tickTimers s dt) lh t1).1 rh t2).2

/-- Body of DanceTargetManager.update for a loaded sequence
(dance_targets.py lines 260-329), with seq the value of current_sequence.
Visual-effect timers and the move timer advance first; a celebrating
manager only runs the celebration countdown and returns early; otherwise
the per-hand hit tests, the satisfied/timeout decision and finally the
sequence-completion check run in source order. -/
def updateSome (s : DanceTargetManager) (seq : DanceSequence) (dt : ℚ)
    (left_hand right_hand : Option (ℚ × ℚ)) : DanceTargetManager × Events :=
  if (tickTimers s dt).celebrating then
    celebrate (tickTimers s dt) dt
  else
    resolveMove seq
      (hitPhase s dt left_hand right_hand
        (targetsOf s seq).1 (targetsOf s seq).2)
      (hitPhasePop s dt left_hand right_hand
        (targetsOf s seq).1 (targetsOf s seq).2)
      (targetsOf s seq).1 (targetsOf s seq).2

/-- DanceTargetManager.update (dance_targets.py lines 248-329): with no
sequence loaded the all-false events record is returned and the state is
untouched; otherwise the loaded-sequence body runs. -/
def update (s : DanceTargetManager) (dt : ℚ)
    (left_hand right_hand : Option (ℚ × ℚ)) : DanceTargetManager × Events :=
  match s.current_sequence with
  | none => (s, noEvents)
  | some seq => updateSome s seq dt left_hand right_hand

/-- DanceTargetManager.get_time_remaining (dance_targets.py
lines 342-344). -/
def getTimeRemaining (s : DanceTargetManager) : ℚ :=
  max 0 (s.move_timeout - s.move_timer)

/-- DanceTargetManager.get_time_progress (dance_targets.py
lines 346-348). -/
def getTimeProgress (s : DanceTargetManager) : ℚ :=
  min 1 (s.move_timer / s.move_timeout)

/-- DanceTargetManager.is_sequence_complete (dance_targets.py
lines 371-375). -/
def isSequenceComplete (s : DanceTargetManager) : Bool :=
  match s.current_sequence with
  | none => true
  | some _ => decide (s.max_loops ≤ s.loop_count)

/-- Repeated ticking of the manager: runMgr dt lh rh s n is the state after
n calls of update with time step dt, the hands at call k given by lh k and
rh k. -/
def runMgr (dt : ℚ) (lh rh : ℕ → Option (ℚ × ℚ))
    (s : DanceTargetManager) : ℕ → DanceTargetManager
  | 0 => s
  | n + 1 => (update (runMgr dt lh rh s n) dt (lh n) (rh n)).1

/-- Events emitted by call n (0-indexed) of the run described by runMgr. -/
def eventsAt (dt : ℚ) (lh rh : ℕ → Option (ℚ × ℚ))
    (s : DanceTargetManager) (n : ℕ) : Events :=
  (update (runMgr dt lh rh s n) dt (lh n) (rh n)).2

/-- C4: DanceTargetManager.start_sequence performs no validation at all: it
silently installs whatever sequence it is given.  The empty sequence used
to exhibit this. -/
def emptySeq : DanceSequence := { name := "Empty", moves := [] }

/-- A poppable target of the popper mode (game.py, dataclass Target,
lines 25-37). -/
structure Target where
  x : ℚ
  y : ℚ
  target_type : String
  vx : ℚ := 0
  vy : ℚ := 0
  lifetime : ℚ := 5
  size : ℚ := 50
  popped : Bool := false
  pop_timer : ℚ := 0
  sprite_variant : ℕ := 0
  deriving Repr, DecidableEq

/-- Per-pair hand-versus-target hit test of DanceModeGame._check_collisions
(game.py lines 1109-1120): the hand pops the target when the Euclidean
distance from the hand to the target center is strictly below the fixed
hand radius 50 plus half the target size.  The source compares
math.sqrt(dx*dx + dy*dy) < hit_radius + target.size / 2; the embedding
stores the equivalent squared comparison (see the hit-test theorem). -/
def checkCollisionHit (hand : ℚ × ℚ) (t : Target) : Bool :=
  let hit_radius : ℚ := 50
  let dx := hand.1 - t.x
  let dy := hand.2 - t.y
  decide (dx * dx + dy * dy <
    (hit_radius + t.size / 2) * (hit_radius + t.size / 2))

/-- One target's transition under DanceModeGame._update_targets (game.py
lines 1074-1095): a popped target only advances its fade timer and is
dropped once that exceeds 0.3; a live target integrates its velocity,
reflects and clamps at the 50-pixel wall margins, loses dt of lifetime,
and is dropped when the lifetime has reached zero or below. -/
def integrate (w h dt : ℚ) (t : Target) : Target :=
  let t1 := { t with x := t.x + t.vx * dt, y := t.y + t.vy * dt }
  let t2 := if t1.x < 50 ∨ w - 50 < t1.x then
      { t1 with vx := -t1.vx, x := max 50 (min (w - 50) t1.x) }
    else t1
  if t2.y < 50 ∨ h - 50 < t2.y then
    { t2 with vy := -t2.vy, y := max 50 (min (h - 50) t2.y) }
  else t2

/-- Motion integration, wall bounce, lifetime decrement and removal of a
single target per tick of _update_targets (game.py lines 1074-1095); the
position/bounce block is the integrate helper above. -/
def stepTarget (w h dt : ℚ) (t : Target) : Option Target :=
  if t.popped then
    let t1 := { t with pop_timer := t.pop_timer + dt }
    if 3 / 10 < t1.pop_timer then none else some t1
  else
    let t4 := { integrate w h dt t with
                lifetime := (integrate w h dt t).lifetime - dt }
    if t4.lifetime ≤ 0 then none else some t4

/-- Per-category pop counters (the stats dict of DanceModeGame). -/
structure GameStats where
  bauble : ℕ
  elf : ℕ
  santa : ℕ
  grinch : ℕ
  deriving Repr, DecidableEq

/-- The slice of DanceModeGame state that _update_targets touches or could
touch: the live target list together with the score and per-category
stats. -/
structure PopperGame where
  width : ℚ
  height : ℚ
  targets : List Target
  score : ℤ
  stats : GameStats
  deriving Repr, DecidableEq

/-- DanceModeGame._update_targets (game.py lines 1074-1095): every target
steps through stepTarget; expired and fully faded targets drop out; score
and stats are not touched on this path. -/
def updateTargets (g : PopperGame) (dt : ℚ) : PopperGame :=
  { g with targets := g.targets.filterMap (stepTarget g.width g.height dt) }

/-- Iterated _update_targets ticks. -/
def runPop (g : PopperGame) (dt : ℚ) : ℕ → PopperGame
  | 0 => g
  | n + 1 => updateTargets (runPop g dt n) dt

/-- The lone low-value bauble of the C5 scenario: point value 5, lifetime
8 seconds, static, spawned well inside the walls. -/
def demoBauble : Target :=
  { x := 400, y := 300, target_type := "bauble", lifetime := 8, size := 100 }

/-- Popper round holding only demoBauble, score 0, no pops recorded. -/
def demoPop : PopperGame :=
  { width := 1280, height := 720, targets := [demoBauble], score := 0,
    stats := ⟨0, 0, 0, 0⟩ }

/-- C2 counterexample: the claim says the popper hit test is true iff the
Euclidean distance is less than OR EQUAL to the radius; at a hand exactly
on the boundary (distance 100 = 50 + 100/2) the code's strict comparison
returns false, refuting the stated iff at this concrete input. -/
def cxTarget : Target :=
  { x := 50, y := 0, target_type := "bauble", lifetime := 8, size := 100 }

/-- The one-move demo sequence of the C3 scenario: both hands target the
screen center. -/
def demoMove : DanceMove :=
  { name := "Pose", left_hand_target := some (1/2, 1/2),
    right_hand_target := some (1/2, 1/2) }

/-- One-move demo sequence. -/
def demoSeq : DanceSequence := { name := "Demo", moves := [demoMove] }

/-- Manager that has just started the demo sequence on a 800x600 screen:
both pixel targets are (400, 300). -/
def demoStart : DanceTargetManager := startSequence (initState 800 600) demoSeq

/-- Hand stream holding both hands exactly on the demo target forever. -/
def handsOn : ℕ → Option (ℚ × ℚ) := fun _ => some (400, 300)

/-- Hand stream with no hands detected on any tick. -/
def handsOff : ℕ → Option (ℚ × ℚ) := fun _ => none

/-- States of DanceTargetManager reachable from construction through any
run of start_sequence calls and update ticks with nonnegative dt. -/
inductive Reachable : DanceTargetManager → Prop where
  | init : ∀ (w h : ℤ), Reachable (initState w h)
  | start : ∀ (s : DanceTargetManager) (seq : DanceSequence),
      Reachable s → Reachable (startSequence s seq)
  | step : ∀ (s : DanceTargetManager) (dt : ℚ) (lh rh : Option (ℚ × ℚ)),
      Reachable s → 0 ≤ dt → Reachable (update s dt lh rh).1

/-- The bounce block touches only position and velocity: lifetime, popped
flag and the rest are untouched. -/
theorem integrate_frame (w h dt : ℚ) (t : Target) :
    (integrate w h dt t).lifetime = t.lifetime ∧
      (integrate w h dt t).popped = t.popped ∧
      (integrate w h dt t).size = t.size ∧
      (integrate w h dt t).target_type = t.target_type := by
  rw [integrate]
  split_ifs <;> exact ⟨rfl, rfl, rfl, rfl⟩

/-- C4: the claim says an empty sequence is rejected at load time with a
descriptive failure; the code has no validation on this path.  Evaluating
the embedded start_sequence at the empty sequence: it is silently accepted
as the current sequence and the counters are reset, with no error of any
kind (start_sequence is a total state transformer in the source, it has no
failure outcome). -/
theorem C4_empty_sequence_accepted :
    (startSequence (initState 800 600) emptySeq).current_sequence
        = some emptySeq ∧
      (startSequence (initState 800 600) emptySeq).current_move_index = 0 ∧
      (startSequence (initState 800 600) emptySeq).moves_completed = 0 := by
  refine ⟨rfl, rfl, rfl⟩

/-- C8: start_sequence resets the move index, move timer, hand-hit flags,
completed and missed counters, current streak and loop counter, while
best_streak, celebrating, celebration_timer and the two recorded hit times
are left exactly as they were, so they carry over into the new sequence. -/
theorem C8_start_sequence_frame (s : DanceTargetManager)
    (seq : DanceSequence) :
    (startSequence s seq).current_move_index = 0 ∧
      (startSequence s seq).move_timer = 0 ∧
      (startSequence s seq).left_hand_hit = false ∧
      (startSequence s seq).right_hand_hit = false ∧
      (startSequence s seq).moves_completed = 0 ∧
      (startSequence s seq).moves_missed = 0 ∧
      (startSequence s seq).current_streak = 0 ∧
      (startSequence s seq).loop_count = 0 ∧
      (startSequence s seq).best_streak = s.best_streak ∧
      (startSequence s seq).celebrating = s.celebrating ∧
      (startSequence s seq).celebration_timer = s.celebration_timer ∧
      (startSequence s seq).left_hit_time = s.left_hit_time ∧
      (startSequence s seq).right_hit_time = s.right_hit_time :=
  ⟨rfl, rfl, rfl, rfl, rfl, rfl, rfl, rfl, rfl, rfl, rfl, rfl, rfl⟩

/-- With no sequence loaded, update is a no-op returning the all-false
events record (helper shared by several proofs). -/
theorem update_none (s : DanceTargetManager) (dt : ℚ)
    (lh rh : Option (ℚ × ℚ)) (h : s.current_sequence = none) :
    update s dt lh rh = (s, noEvents) := by
  unfold update
  rw [h]

/-- C9: when no sequence is loaded, update returns the all-false events
record (hit, miss, complete, sequence_complete, pop all false) and the
manager state is returned completely unchanged. -/
theorem C9_no_sequence_noop (s : DanceTargetManager) (dt : ℚ)
    (lh rh : Option (ℚ × ℚ)) (h : s.current_sequence = none) :
    update s dt lh rh = (s, noEvents) :=
  update_none s dt lh rh h

/-- Witness for C9 at the freshly constructed manager. -/
theorem C9_no_sequence_noop_witness :
    update (initState 800 600) 1 none none = (initState 800 600, noEvents) :=
  C9_no_sequence_noop (initState 800 600) 1 none none rfl

/-- C2 counterexample theorem: at hand position (150, 0) and cxTarget the
distance equals the radius exactly, the hit test returns false, so the
claimed distance-at-most-radius iff fails. -/
theorem C2_popper_boundary_cx :
    ¬(checkCollisionHit (150, 0) cxTarget = true ↔
        Real.sqrt (((150 : ℝ) - 50) ^ 2 + ((0 : ℝ) - 0) ^ 2)
          ≤ 50 + (cxTarget.size : ℝ) / 2) := by
  intro h
  have hd : (((150 : ℝ) - 50) ^ 2 + ((0 : ℝ) - 0) ^ 2) = 100 ^ 2 := by norm_num
  have hsz : (cxTarget.size : ℝ) = 100 := by norm_num [cxTarget]
  rw [hd, Real.sqrt_sq (by norm_num : (0 : ℝ) ≤ 100), hsz] at h
  have hc : checkCollisionHit (150, 0) cxTarget = true := h.mpr (by norm_num)
  rw [checkCollisionHit] at hc
  simp only [decide_eq_true_eq] at hc
  norm_num [cxTarget] at hc

/-- C2 (amended): both embedded hit tests agree with the genuine Euclidean
distance test, with the comparison non-strict in choreography mode
(check_hand_hit: distance at most hit_radius) but STRICT in popper mode
(_check_collisions: distance strictly below 50 plus half the target
size). -/
theorem C2_hit_tests :
    (∀ (r hx hy : ℚ) (tx ty : ℤ), 0 ≤ r →
        (checkHandHit r (some (hx, hy)) (some (tx, ty)) = true ↔
          Real.sqrt (((hx : ℝ) - (tx : ℝ)) ^ 2 + ((hy : ℝ) - (ty : ℝ)) ^ 2)
            ≤ (r : ℝ))) ∧
      (∀ (hx hy : ℚ) (t : Target), 0 ≤ t.size →
        (checkCollisionHit (hx, hy) t = true ↔
          Real.sqrt (((hx : ℝ) - (t.x : ℝ)) ^ 2 + ((hy : ℝ) - (t.y : ℝ)) ^ 2)
            < 50 + (t.size : ℝ) / 2)) := by
  constructor
  · intro r hx hy tx ty hr
    rw [checkHandHit]
    simp only [decide_eq_true_eq]
    rw [Real.sqrt_le_left (by exact_mod_cast hr)]
    rw [show ((hx : ℝ) - (tx : ℝ)) ^ 2 + ((hy : ℝ) - (ty : ℝ)) ^ 2
          = (((hx - (tx : ℚ)) * (hx - (tx : ℚ))
              + (hy - (ty : ℚ)) * (hy - (ty : ℚ)) : ℚ) : ℝ) by
        push_cast
        ring]
    rw [show ((r : ℝ)) ^ 2 = ((r * r : ℚ) : ℝ) by push_cast; ring]
    exact (Rat.cast_le (K := ℝ)).symm
  · intro hx hy t hs
    rw [checkCollisionHit]
    simp only [decide_eq_true_eq]
    have hrad : (0 : ℝ) < 50 + (t.size : ℝ) / 2 := by
      have : (0 : ℝ) ≤ (t.size : ℝ) := by exact_mod_cast hs
      linarith
    rw [Real.sqrt_lt' hrad]
    rw [show ((hx : ℝ) - (t.x : ℝ)) ^ 2 + ((hy : ℝ) - (t.y : ℝ)) ^ 2
          = (((hx - t.x) * (hx - t.x) + (hy - t.y) * (hy - t.y) : ℚ) : ℝ) by
        push_cast
        ring]
    rw [show (50 + (t.size : ℝ) / 2) ^ 2
          = (((50 + t.size / 2) * (50 + t.size / 2) : ℚ) : ℝ) by
        push_cast
        ring]
    exact (Rat.cast_lt (K := ℝ)).symm

/-- Witness for the amended C2 theorem: hand (400, 300) on a target at
pixel (400, 300) in choreography mode (distance 0 at radius 80), and hand
(150, 0) against cxTarget in popper mode. -/
theorem C2_hit_tests_witness :
    ((checkHandHit 80 (some ((400 : ℚ), (300 : ℚ)))
          (some ((400 : ℤ), (300 : ℤ))) = true ↔
        Real.sqrt ((((400 : ℚ) : ℝ) - ((400 : ℤ) : ℝ)) ^ 2
            + (((300 : ℚ) : ℝ) - ((300 : ℤ) : ℝ)) ^ 2)
          ≤ ((80 : ℚ) : ℝ)) ∧
      (checkCollisionHit ((150 : ℚ), (0 : ℚ)) cxTarget = true ↔
        Real.sqrt ((((150 : ℚ) : ℝ) - (cxTarget.x : ℝ)) ^ 2
            + (((0 : ℚ) : ℝ) - (cxTarget.y : ℝ)) ^ 2)
          < 50 + (cxTarget.size : ℝ) / 2)) :=
  ⟨C2_hit_tests.1 80 400 300 400 300 (by norm_num),
    C2_hit_tests.2 150 0 cxTarget (by norm_num [cxTarget])⟩

/-- C5: while a popper target is not popped its lifetime drops by exactly
dt per tick of _update_targets (hence is non-increasing for dt at least
0), the target survives the tick exactly when the decremented lifetime is
still positive, the tick never touches score or per-category stats, and in
the concrete scenario the lone 8-second bauble with no hand in range is
present for seven 1-second ticks, gone after the eighth, with score and
stats unchanged. -/
theorem C5_lifetime_expiry :
    (∀ (g : PopperGame) (dt : ℚ),
        (updateTargets g dt).score = g.score ∧
          (updateTargets g dt).stats = g.stats) ∧
      (∀ (w h dt : ℚ) (t t' : Target), 0 ≤ dt → t.popped = false →
        stepTarget w h dt t = some t' →
          t'.lifetime = t.lifetime - dt ∧ t'.lifetime ≤ t.lifetime ∧
            0 < t'.lifetime ∧ t'.popped = false) ∧
      (∀ (w h dt : ℚ) (t : Target), t.popped = false → t.lifetime - dt ≤ 0 →
        stepTarget w h dt t = none) ∧
      ((runPop demoPop 1 7).targets.length = 1 ∧
        (runPop demoPop 1 8).targets = [] ∧
        (runPop demoPop 1 8).score = demoPop.score ∧
        (runPop demoPop 1 8).stats = demoPop.stats) := by
  refine ⟨fun g dt => ⟨rfl, rfl⟩, ?_, ?_, ?_⟩
  · intro w h dt t t' hdt hp hstep
    rw [stepTarget, hp] at hstep
    simp only [Bool.false_eq_true, if_false] at hstep
    split_ifs at hstep with hl
    all_goals first
      | (exfalso; exact Option.noConfusion hstep)
      | (rw [Option.some.injEq] at hstep
         subst hstep
         refine ⟨?_, ?_, ?_, ?_⟩
         · show (integrate w h dt t).lifetime - dt = t.lifetime - dt
           rw [(integrate_frame w h dt t).1]
         · show (integrate w h dt t).lifetime - dt ≤ t.lifetime
           rw [(integrate_frame w h dt t).1]
           linarith
         · exact not_le.mp hl
         · show (integrate w h dt t).popped = false
           rw [(integrate_frame w h dt t).2.1]
           exact hp)
  · intro w h dt t hp hlife
    rw [stepTarget, hp]
    simp only [Bool.false_eq_true, if_false]
    rw [if_pos]
    show (integrate w h dt t).lifetime - dt ≤ 0
    rw [(integrate_frame w h dt t).1]
    exact hlife
  · have hs : ∀ (g : PopperGame) (n : ℕ),
        runPop g 1 (n + 1) = updateTargets (runPop g 1 n) 1 :=
      fun g n => rfl
    have h0 : ∀ (g : PopperGame), runPop g 1 0 = g := fun g => rfl
    refine ⟨?_, ?_, rfl, rfl⟩
    · rw [show (7:ℕ) = 6+1 from rfl, hs, show (6:ℕ) = 5+1 from rfl, hs,
        show (5:ℕ) = 4+1 from rfl, hs, show (4:ℕ) = 3+1 from rfl, hs,
        show (3:ℕ) = 2+1 from rfl, hs, show (2:ℕ) = 1+1 from rfl, hs,
        show (1:ℕ) = 0+1 from rfl, hs, h0]
      norm_num [updateTargets, stepTarget, integrate, demoPop, demoBauble,
        List.filterMap]
    · rw [show (8:ℕ) = 7+1 from rfl, hs, show (7:ℕ) = 6+1 from rfl, hs,
        show (6:ℕ) = 5+1 from rfl, hs, show (5:ℕ) = 4+1 from rfl, hs,
        show (4:ℕ) = 3+1 from rfl, hs, show (3:ℕ) = 2+1 from rfl, hs,
        show (2:ℕ) = 1+1 from rfl, hs, show (1:ℕ) = 0+1 from rfl, hs, h0]
      norm_num [updateTargets, stepTarget, integrate, demoPop, demoBauble,
        List.filterMap]

/-- Witness for C5: one concrete surviving tick and one concrete expiry
tick of the demo bauble. -/
theorem C5_lifetime_expiry_witness :
    (stepTarget 1280 720 8 demoBauble = none) ∧
      (({ demoBauble with lifetime := 7 } : Target).lifetime
          = demoBauble.lifetime - 1 ∧
        ({ demoBauble with lifetime := 7 } : Target).lifetime
          ≤ demoBauble.lifetime ∧
        0 < ({ demoBauble with lifetime := 7 } : Target).lifetime ∧
        ({ demoBauble with lifetime := 7 } : Target).popped = false) :=
  ⟨C5_lifetime_expiry.2.2.1 1280 720 8 demoBauble rfl (by norm_num [demoBauble]),
    C5_lifetime_expiry.2.1 1280 720 1 demoBauble _ (by norm_num) rfl
      (by norm_num [stepTarget, integrate, demoBauble])⟩

/-- update dispatches to updateSome when a sequence is loaded. -/
theorem update_some (s : DanceTargetManager) (seq : DanceSequence) (dt : ℚ)
    (lh rh : Option (ℚ × ℚ)) (h : s.current_sequence = some seq) :
    update s dt lh rh = updateSome s seq dt lh rh := by
  unfold update
  rw [h]

/-- seqCheck never touches the events other than sequence_complete. -/
theorem seqCheck_events (seq : DanceSequence) (s : DanceTargetManager)
    (ev : Events) :
    (seqCheck seq s ev).2.hit = ev.hit ∧
      (seqCheck seq s ev).2.miss = ev.miss ∧
      (seqCheck seq s ev).2.pop = ev.pop ∧
      (seqCheck seq s ev).2.complete = ev.complete := by
  rw [seqCheck]
  split_ifs <;> exact ⟨rfl, rfl, rfl, rfl⟩

/-- seqCheck touches only loop_count and current_move_index of the state. -/
theorem seqCheck_frame (seq : DanceSequence) (s : DanceTargetManager)
    (ev : Events) :
    (seqCheck seq s ev).1.current_sequence = s.current_sequence ∧
      (seqCheck seq s ev).1.move_timer = s.move_timer ∧
      (seqCheck seq s ev).1.move_timeout = s.move_timeout ∧
      (seqCheck seq s ev).1.min_display_time = s.min_display_time ∧
      (seqCheck seq s ev).1.max_loops = s.max_loops ∧
      (seqCheck seq s ev).1.celebrating = s.celebrating ∧
      (seqCheck seq s ev).1.current_streak = s.current_streak ∧
      (seqCheck seq s ev).1.best_streak = s.best_streak ∧
      (seqCheck seq s ev).1.moves_completed = s.moves_completed ∧
      (seqCheck seq s ev).1.moves_missed = s.moves_missed := by
  rw [seqCheck]
  split_ifs <;> exact ⟨rfl, rfl, rfl, rfl, rfl, rfl, rfl, rfl, rfl, rfl⟩

/-- Field form of the saturated end-of-sequence behaviour of seqCheck,
shaped for direct application against a goal. -/
theorem seqCheck_end_fields (seq : DanceSequence) (s : DanceTargetManager)
    (ev : Events) (h1 : seq.moves.length ≤ s.current_move_index)
    (h2 : s.max_loops ≤ s.loop_count) :
    (seqCheck seq s ev).2.sequence_complete = true ∧
      seq.moves.length ≤ (seqCheck seq s ev).1.current_move_index ∧
      (seqCheck seq s ev).1.max_loops ≤ (seqCheck seq s ev).1.loop_count := by
  rw [seqCheck, if_pos h1, if_pos (le_trans h2 (Nat.le_succ _))]
  exact ⟨rfl, h1, le_trans h2 (Nat.le_succ _)⟩

/-- seqCheck on an in-range index is the identity. -/
theorem seqCheck_not_end (seq : DanceSequence) (s : DanceTargetManager)
    (ev : Events) (h : s.current_move_index < seq.moves.length) :
    seqCheck seq s ev = (s, ev) := by
  rw [seqCheck, if_neg (not_le.mpr h)]

/-- Behaviour of seqCheck at an end-of-sequence index when the loop counter
is already at or past the limit: it increments the counter, keeps the
index, and reports sequence_complete. -/
theorem seqCheck_end_saturated (seq : DanceSequence) (s : DanceTargetManager)
    (ev : Events) (h1 : seq.moves.length ≤ s.current_move_index)
    (h2 : s.max_loops ≤ s.loop_count) :
    seqCheck seq s ev
      = ({ s with loop_count := s.loop_count + 1 },
          { ev with sequence_complete := true }) := by
  rw [seqCheck, if_pos h1, if_pos]
  show s.max_loops ≤ s.loop_count + 1
  exact le_trans h2 (Nat.le_succ _)

/-- tickTimers changes only the visual timers and the move timer. -/
theorem tickTimers_frame (s : DanceTargetManager) (dt : ℚ) :
    (tickTimers s dt).move_timer = s.move_timer + dt ∧
      (tickTimers s dt).celebrating = s.celebrating ∧
      (tickTimers s dt).current_sequence = s.current_sequence ∧
      (tickTimers s dt).current_move_index = s.current_move_index ∧
      (tickTimers s dt).move_timeout = s.move_timeout ∧
      (tickTimers s dt).min_display_time = s.min_display_time ∧
      (tickTimers s dt).max_loops = s.max_loops ∧
      (tickTimers s dt).loop_count = s.loop_count ∧
      (tickTimers s dt).current_streak = s.current_streak ∧
      (tickTimers s dt).best_streak = s.best_streak ∧
      (tickTimers s dt).moves_completed = s.moves_completed ∧
      (tickTimers s dt).moves_missed = s.moves_missed ∧
      (tickTimers s dt).celebration_timer = s.celebration_timer ∧
      (tickTimers s dt).celebration_time = s.celebration_time :=
  ⟨rfl, rfl, rfl, rfl, rfl, rfl, rfl, rfl, rfl, rfl, rfl, rfl, rfl, rfl⟩

/-- The celebration branch emits neither hit nor miss nor
sequence_complete, and leaves the loop counter, loop limit, sequence,
timeouts, score counters and streaks unchanged; the move index either
stays (still celebrating) or advances by one (_next_move), and the move
timer either stays or resets to zero. -/
theorem celebrate_spec (s : DanceTargetManager) (dt : ℚ) :
    (celebrate s dt).2.hit = false ∧
      (celebrate s dt).2.miss = false ∧
      (celebrate s dt).2.sequence_complete = false ∧
      (celebrate s dt).1.loop_count = s.loop_count ∧
      (celebrate s dt).1.max_loops = s.max_loops ∧
      (celebrate s dt).1.current_sequence = s.current_sequence ∧
      (celebrate s dt).1.move_timeout = s.move_timeout ∧
      (celebrate s dt).1.min_display_time = s.min_display_time ∧
      (celebrate s dt).1.current_streak = s.current_streak ∧
      (celebrate s dt).1.best_streak = s.best_streak ∧
      (celebrate s dt).1.moves_completed = s.moves_completed ∧
      (celebrate s dt).1.moves_missed = s.moves_missed ∧
      ((celebrate s dt).1.current_move_index = s.current_move_index ∨
        (celebrate s dt).1.current_move_index = s.current_move_index + 1) ∧
      ((celebrate s dt).1.move_timer = s.move_timer ∨
        (celebrate s dt).1.move_timer = 0) := by
  rw [celebrate]
  split_ifs <;>
    exact ⟨rfl, rfl, rfl, rfl, rfl, rfl, rfl, rfl, rfl, rfl, rfl, rfl,
      by simp [nextMove], by simp [nextMove]⟩

/-- The left-hand hit check touches only the left-hand flag and time. -/
theorem applyLeftHit_frame (s : DanceTargetManager) (hand : Option (ℚ × ℚ))
    (target : Option (ℤ × ℤ)) :
    ((applyLeftHit s hand target).1.move_timer = s.move_timer ∧
        (applyLeftHit s hand target).1.celebrating = s.celebrating ∧
        (applyLeftHit s hand target).1.current_sequence
          = s.current_sequence ∧
        (applyLeftHit s hand target).1.current_move_index
          = s.current_move_index ∧
        (applyLeftHit s hand target).1.move_timeout = s.move_timeout ∧
        (applyLeftHit s hand target).1.min_display_time
          = s.min_display_time ∧
        (applyLeftHit s hand target).1.max_loops = s.max_loops ∧
        (applyLeftHit s hand target).1.loop_count = s.loop_count ∧
        (applyLeftHit s hand target).1.current_streak = s.current_streak ∧
        (applyLeftHit s hand target).1.best_streak = s.best_streak ∧
        (applyLeftHit s hand target).1.moves_completed
          = s.moves_completed ∧
        (applyLeftHit s hand target).1.moves_missed = s.moves_missed) := by
  rw [applyLeftHit]
  split_ifs <;> exact ⟨rfl, rfl, rfl, rfl, rfl, rfl, rfl, rfl, rfl, rfl, rfl, rfl⟩

/-- The right-hand hit check touches only the right-hand flag and time. -/
theorem applyRightHit_frame (s : DanceTargetManager) (hand : Option (ℚ × ℚ))
    (target : Option (ℤ × ℤ)) :
    ((applyRightHit s hand target).1.move_timer = s.move_timer ∧
        (applyRightHit s hand target).1.celebrating = s.celebrating ∧
        (applyRightHit s hand target).1.current_sequence
          = s.current_sequence ∧
        (applyRightHit s hand target).1.current_move_index
          = s.current_move_index ∧
        (applyRightHit s hand target).1.move_timeout = s.move_timeout ∧
        (applyRightHit s hand target).1.min_display_time
          = s.min_display_time ∧
        (applyRightHit s hand target).1.max_loops = s.max_loops ∧
        (applyRightHit s hand target).1.loop_count = s.loop_count ∧
        (applyRightHit s hand target).1.current_streak = s.current_streak ∧
        (applyRightHit s hand target).1.best_streak = s.best_streak ∧
        (applyRightHit s hand target).1.moves_completed
          = s.moves_completed ∧
        (applyRightHit s hand target).1.moves_missed = s.moves_missed) := by
  rw [applyRightHit]
  split_ifs <;> exact ⟨rfl, rfl, rfl, rfl, rfl, rfl, rfl, rfl, rfl, rfl, rfl, rfl⟩

/-- resolveMove never reports hit and miss together. -/
theorem resolveMove_not_both (seq : DanceSequence) (s3 : DanceTargetManager)
    (popped : Bool) (lt rt : Option (ℤ × ℤ)) :
    ¬((resolveMove seq s3 popped lt rt).2.hit = true ∧
      (resolveMove seq s3 popped lt rt).2.miss = true) := by
  rw [resolveMove]
  split_ifs <;> (rw [seqCheck]; split_ifs <;> simp [noEvents])

/-- A miss reported by resolveMove comes with the streak already reset to
zero in the returned state. -/
theorem resolveMove_miss_streak (seq : DanceSequence)
    (s3 : DanceTargetManager) (popped : Bool) (lt rt : Option (ℤ × ℤ))
    (h : (resolveMove seq s3 popped lt rt).2.miss = true) :
    (resolveMove seq s3 popped lt rt).1.current_streak = 0 := by
  rw [resolveMove] at h ⊢
  split_ifs at h ⊢ <;>
    (rw [seqCheck] at h ⊢; split_ifs at h ⊢ <;>
      simp_all [nextMove, noEvents])

/-- resolveMove never lowers the best streak. -/
theorem resolveMove_best_mono (seq : DanceSequence)
    (s3 : DanceTargetManager) (popped : Bool) (lt rt : Option (ℤ × ℤ)) :
    s3.best_streak ≤ (resolveMove seq s3 popped lt rt).1.best_streak := by
  rw [resolveMove]
  split_ifs <;> (rw [seqCheck]; split_ifs) <;>
    first
      | exact le_max_left _ _
      | exact le_refl _

/-- Once the post-increment move timer has reached the timeout, resolveMove
fires one of hit or miss. -/
theorem resolveMove_fires (seq : DanceSequence) (s3 : DanceTargetManager)
    (popped : Bool) (lt rt : Option (ℤ × ℤ))
    (h : s3.move_timeout ≤ s3.move_timer) :
    (resolveMove seq s3 popped lt rt).2.hit = true ∨
      (resolveMove seq s3 popped lt rt).2.miss = true := by
  rw [resolveMove]
  by_cases h1 : ((lt.isNone || s3.left_hand_hit) &&
      (rt.isNone || s3.right_hand_hit) &&
      decide (s3.min_display_time ≤ s3.move_timer)) = true
  · rw [if_pos h1]
    left
    rw [seqCheck]
    split_ifs <;> rfl
  · rw [if_neg h1, if_pos h]
    right
    rw [seqCheck]
    split_ifs <;> rfl

/-- If neither hit nor miss fires and the move index is in range,
resolveMove returns the state it was given, unchanged. -/
theorem resolveMove_noFire (seq : DanceSequence) (s3 : DanceTargetManager)
    (popped : Bool) (lt rt : Option (ℤ × ℤ))
    (hidx : s3.current_move_index < seq.moves.length)
    (hh : (resolveMove seq s3 popped lt rt).2.hit = false)
    (hm : (resolveMove seq s3 popped lt rt).2.miss = false) :
    (resolveMove seq s3 popped lt rt).1 = s3 := by
  rw [resolveMove] at hh hm ⊢
  split_ifs at hh hm ⊢ with h1 h2
  · exfalso
    rw [(seqCheck_events seq _ _).1] at hh
    simp [noEvents] at hh
  · exfalso
    rw [(seqCheck_events seq _ _).2.1] at hm
    simp [noEvents] at hm
  · rw [seqCheck_not_end seq _ _ hidx]

/-- Before the minimum display floor, resolveMove cannot report a hit,
cannot count a completed move, and cannot newly enter celebration. -/
theorem resolveMove_early (seq : DanceSequence) (s3 : DanceTargetManager)
    (popped : Bool) (lt rt : Option (ℤ × ℤ))
    (h : s3.move_timer < s3.min_display_time) :
    (resolveMove seq s3 popped lt rt).2.hit = false ∧
      (resolveMove seq s3 popped lt rt).1.moves_completed
        = s3.moves_completed ∧
      ((resolveMove seq s3 popped lt rt).1.celebrating = s3.celebrating ∨
        (resolveMove seq s3 popped lt rt).1.celebrating = false) := by
  rw [resolveMove]
  split_ifs with h1 h2
  · exfalso
    have := (Bool.and_eq_true _ _).mp h1
    have hdec := of_decide_eq_true this.2
    exact absurd hdec (not_le.mpr h)
  · refine ⟨?_, ?_, Or.inr ?_⟩
    · rw [seqCheck]
      split_ifs <;> rfl
    · have hfr := seqCheck_frame seq
        (nextMove { s3 with
          moves_missed := s3.moves_missed + 1
          current_streak := 0
          miss_flash := 1 })
        { noEvents with miss := true, pop := popped }
      rw [hfr.2.2.2.2.2.2.2.2.1]
      rfl
    · have hfr := seqCheck_frame seq
        (nextMove { s3 with
          moves_missed := s3.moves_missed + 1
          current_streak := 0
          miss_flash := 1 })
        { noEvents with miss := true, pop := popped }
      rw [hfr.2.2.2.2.2.1]
      rfl
  · refine ⟨?_, ?_, Or.inl ?_⟩
    · rw [seqCheck]
      split_ifs <;> rfl
    · exact (seqCheck_frame seq s3 _).2.2.2.2.2.2.2.2.1
    · exact (seqCheck_frame seq s3 _).2.2.2.2.2.1

/-- Past the end of the sequence with the loop counter at the limit:
resolveMove keeps the index at or past the end, keeps the counter at or
past the limit, and reports sequence_complete. -/
theorem resolveMove_end (seq : DanceSequence) (s3 : DanceTargetManager)
    (popped : Bool) (lt rt : Option (ℤ × ℤ))
    (hidx : seq.moves.length ≤ s3.current_move_index)
    (hloop : s3.max_loops ≤ s3.loop_count) :
    (resolveMove seq s3 popped lt rt).2.sequence_complete = true ∧
      seq.moves.length ≤ (resolveMove seq s3 popped lt rt).1.current_move_index ∧
      (resolveMove seq s3 popped lt rt).1.max_loops
        ≤ (resolveMove seq s3 popped lt rt).1.loop_count := by
  rw [resolveMove]
  split_ifs with h1 h2
  · exact seqCheck_end_fields seq _ _ hidx hloop
  · exact seqCheck_end_fields seq _ _ (le_trans hidx (Nat.le_succ _)) hloop
  · exact seqCheck_end_fields seq _ _ hidx hloop

/-- resolveMove keeps the loaded sequence. -/
theorem resolveMove_sequence (seq : DanceSequence) (s3 : DanceTargetManager)
    (popped : Bool) (lt rt : Option (ℤ × ℤ)) :
    (resolveMove seq s3 popped lt rt).1.current_sequence
      = s3.current_sequence := by
  rw [resolveMove]
  split_ifs <;> exact (seqCheck_frame seq _ _).1

/-- resolveMove keeps the move timeout. -/
theorem resolveMove_timeout (seq : DanceSequence) (s3 : DanceTargetManager)
    (popped : Bool) (lt rt : Option (ℤ × ℤ)) :
    (resolveMove seq s3 popped lt rt).1.move_timeout = s3.move_timeout := by
  rw [resolveMove]
  split_ifs <;> exact (seqCheck_frame seq _ _).2.2.1

/-- The move timer leaving resolveMove is either untouched or reset to
zero by _next_move. -/
theorem resolveMove_timer (seq : DanceSequence) (s3 : DanceTargetManager)
    (popped : Bool) (lt rt : Option (ℤ × ℤ)) :
    (resolveMove seq s3 popped lt rt).1.move_timer = s3.move_timer ∨
      (resolveMove seq s3 popped lt rt).1.move_timer = 0 := by
  rw [resolveMove]
  split_ifs
  · exact Or.inl (seqCheck_frame seq _ _).2.1
  · exact Or.inr (seqCheck_frame seq _ _).2.1
  · exact Or.inl (seqCheck_frame seq _ _).2.1

/-- The ticked, hit-tested state: the move timer has advanced by dt and
every control field other than the hand flags and times is untouched. -/
theorem hitPhase_move_timer (s : DanceTargetManager) (dt : ℚ)
    (lh rh : Option (ℚ × ℚ)) (t1 t2 : Option (ℤ × ℤ)) :
    (hitPhase s dt lh rh t1 t2).move_timer = s.move_timer + dt := by
  simp only [hitPhase, applyLeftHit, applyRightHit, tickTimers]
  split_ifs <;> rfl

/-- Hit testing does not change the celebrating flag. -/
theorem hitPhase_celebrating (s : DanceTargetManager) (dt : ℚ)
    (lh rh : Option (ℚ × ℚ)) (t1 t2 : Option (ℤ × ℤ)) :
    (hitPhase s dt lh rh t1 t2).celebrating = s.celebrating := by
  simp only [hitPhase, applyLeftHit, applyRightHit, tickTimers]
  split_ifs <;> rfl

/-- Hit testing does not change the loaded sequence. -/
theorem hitPhase_sequence (s : DanceTargetManager) (dt : ℚ)
    (lh rh : Option (ℚ × ℚ)) (t1 t2 : Option (ℤ × ℤ)) :
    (hitPhase s dt lh rh t1 t2).current_sequence = s.current_sequence := by
  simp only [hitPhase, applyLeftHit, applyRightHit, tickTimers]
  split_ifs <;> rfl

/-- Hit testing does not change the move index. -/
theorem hitPhase_index (s : DanceTargetManager) (dt : ℚ)
    (lh rh : Option (ℚ × ℚ)) (t1 t2 : Option (ℤ × ℤ)) :
    (hitPhase s dt lh rh t1 t2).current_move_index = s.current_move_index := by
  simp only [hitPhase, applyLeftHit, applyRightHit, tickTimers]
  split_ifs <;> rfl

/-- Hit testing does not change the move timeout. -/
theorem hitPhase_timeout (s : DanceTargetManager) (dt : ℚ)
    (lh rh : Option (ℚ × ℚ)) (t1 t2 : Option (ℤ × ℤ)) :
    (hitPhase s dt lh rh t1 t2).move_timeout = s.move_timeout := by
  simp only [hitPhase, applyLeftHit, applyRightHit, tickTimers]
  split_ifs <;> rfl

/-- Hit testing does not change the minimum display floor. -/
theorem hitPhase_min_display (s : DanceTargetManager) (dt : ℚ)
    (lh rh : Option (ℚ × ℚ)) (t1 t2 : Option (ℤ × ℤ)) :
    (hitPhase s dt lh rh t1 t2).min_display_time = s.min_display_time := by
  simp only [hitPhase, applyLeftHit, applyRightHit, tickTimers]
  split_ifs <;> rfl

/-- Hit testing does not change the loop limit. -/
theorem hitPhase_max_loops (s : DanceTargetManager) (dt : ℚ)
    (lh rh : Option (ℚ × ℚ)) (t1 t2 : Option (ℤ × ℤ)) :
    (hitPhase s dt lh rh t1 t2).max_loops = s.max_loops := by
  simp only [hitPhase, applyLeftHit, applyRightHit, tickTimers]
  split_ifs <;> rfl

/-- Hit testing does not change the loop counter. -/
theorem hitPhase_loop_count (s : DanceTargetManager) (dt : ℚ)
    (lh rh : Option (ℚ × ℚ)) (t1 t2 : Option (ℤ × ℤ)) :
    (hitPhase s dt lh rh t1 t2).loop_count = s.loop_count := by
  simp only [hitPhase, applyLeftHit, applyRightHit, tickTimers]
  split_ifs <;> rfl

/-- Hit testing does not change the current streak. -/
theorem hitPhase_streak (s : DanceTargetManager) (dt : ℚ)
    (lh rh : Option (ℚ × ℚ)) (t1 t2 : Option (ℤ × ℤ)) :
    (hitPhase s dt lh rh t1 t2).current_streak = s.current_streak := by
  simp only [hitPhase, applyLeftHit, applyRightHit, tickTimers]
  split_ifs <;> rfl

/-- Hit testing does not change the best streak. -/
theorem hitPhase_best (s : DanceTargetManager) (dt : ℚ)
    (lh rh : Option (ℚ × ℚ)) (t1 t2 : Option (ℤ × ℤ)) :
    (hitPhase s dt lh rh t1 t2).best_streak = s.best_streak := by
  simp only [hitPhase, applyLeftHit, applyRightHit, tickTimers]
  split_ifs <;> rfl

/-- Hit testing does not change the completed-move counter. -/
theorem hitPhase_completed (s : DanceTargetManager) (dt : ℚ)
    (lh rh : Option (ℚ × ℚ)) (t1 t2 : Option (ℤ × ℤ)) :
    (hitPhase s dt lh rh t1 t2).moves_completed = s.moves_completed := by
  simp only [hitPhase, applyLeftHit, applyRightHit, tickTimers]
  split_ifs <;> rfl

/-- One tick never reports hit and miss together. -/
theorem updateSome_not_both (s : DanceTargetManager) (seq : DanceSequence)
    (dt : ℚ) (lh rh : Option (ℚ × ℚ)) :
    ¬((updateSome s seq dt lh rh).2.hit = true ∧
      (updateSome s seq dt lh rh).2.miss = true) := by
  rw [updateSome]
  split_ifs with hc
  · intro hx
    rw [(celebrate_spec (tickTimers s dt) dt).1] at hx
    exact Bool.noConfusion hx.1
  · exact resolveMove_not_both seq _ _ _ _

/-- While celebrating, a tick reports neither hit nor miss. -/
theorem updateSome_celebrating (s : DanceTargetManager) (seq : DanceSequence)
    (dt : ℚ) (lh rh : Option (ℚ × ℚ)) (h : s.celebrating = true) :
    (updateSome s seq dt lh rh).2.hit = false ∧
      (updateSome s seq dt lh rh).2.miss = false := by
  rw [updateSome, (tickTimers_frame s dt).2.1, h, if_pos rfl]
  exact ⟨(celebrate_spec _ _).1, (celebrate_spec _ _).2.1⟩

/-- A tick that reports neither hit nor miss, on a current in-range move,
only advances the move timer (and possibly the hand flags): the move
index, celebration flag, sequence and timing configuration survive. -/
theorem updateSome_noFire (s : DanceTargetManager) (seq : DanceSequence)
    (dt : ℚ) (lh rh : Option (ℚ × ℚ)) (hcel : s.celebrating = false)
    (hidx : s.current_move_index < seq.moves.length)
    (hh : (updateSome s seq dt lh rh).2.hit = false)
    (hm : (updateSome s seq dt lh rh).2.miss = false) :
    (updateSome s seq dt lh rh).1.move_timer = s.move_timer + dt ∧
      (updateSome s seq dt lh rh).1.celebrating = false ∧
      (updateSome s seq dt lh rh).1.current_move_index
        = s.current_move_index ∧
      (updateSome s seq dt lh rh).1.current_sequence = s.current_sequence ∧
      (updateSome s seq dt lh rh).1.move_timeout = s.move_timeout ∧
      (updateSome s seq dt lh rh).1.min_display_time = s.min_display_time := by
  rw [updateSome, (tickTimers_frame s dt).2.1, hcel,
    if_neg Bool.false_ne_true] at hh hm ⊢
  have h3 := resolveMove_noFire seq
    (hitPhase s dt lh rh (targetsOf s seq).1 (targetsOf s seq).2)
    (hitPhasePop s dt lh rh (targetsOf s seq).1 (targetsOf s seq).2)
    (targetsOf s seq).1 (targetsOf s seq).2
    (by rw [hitPhase_index]; exact hidx) hh hm
  rw [h3]
  exact ⟨hitPhase_move_timer s dt lh rh _ _,
    (hitPhase_celebrating s dt lh rh _ _).trans hcel,
    hitPhase_index s dt lh rh _ _,
    hitPhase_sequence s dt lh rh _ _,
    hitPhase_timeout s dt lh rh _ _,
    hitPhase_min_display s dt lh rh _ _⟩

/-- A non-celebrating tick whose post-increment timer has reached the
timeout reports hit or miss. -/
theorem updateSome_fires (s : DanceTargetManager) (seq : DanceSequence)
    (dt : ℚ) (lh rh : Option (ℚ × ℚ)) (hcel : s.celebrating = false)
    (hlate : s.move_timeout ≤ s.move_timer + dt) :
    (updateSome s seq dt lh rh).2.hit = true ∨
      (updateSome s seq dt lh rh).2.miss = true := by
  rw [updateSome, (tickTimers_frame s dt).2.1, hcel,
    if_neg Bool.false_ne_true]
  apply resolveMove_fires
  rw [hitPhase_timeout, hitPhase_move_timer]
  exact hlate

/-- A reported miss leaves the streak at zero. -/
theorem updateSome_miss_streak (s : DanceTargetManager) (seq : DanceSequence)
    (dt : ℚ) (lh rh : Option (ℚ × ℚ))
    (hm : (updateSome s seq dt lh rh).2.miss = true) :
    (updateSome s seq dt lh rh).1.current_streak = 0 := by
  rw [updateSome] at hm ⊢
  split_ifs at hm ⊢ with hc
  · rw [(celebrate_spec (tickTimers s dt) dt).2.1] at hm
    exact Bool.noConfusion hm
  · exact resolveMove_miss_streak seq _ _ _ _ hm

/-- A tick never lowers the best streak. -/
theorem updateSome_best_mono (s : DanceTargetManager) (seq : DanceSequence)
    (dt : ℚ) (lh rh : Option (ℚ × ℚ)) :
    s.best_streak ≤ (updateSome s seq dt lh rh).1.best_streak := by
  rw [updateSome]
  split_ifs with hc
  · rw [(celebrate_spec (tickTimers s dt) dt).2.2.2.2.2.2.2.2.2.1,
      (tickTimers_frame s dt).2.2.2.2.2.2.2.2.2.1]
  · have h1 := resolveMove_best_mono seq
      (hitPhase s dt lh rh (targetsOf s seq).1 (targetsOf s seq).2)
      (hitPhasePop s dt lh rh (targetsOf s seq).1 (targetsOf s seq).2)
      (targetsOf s seq).1 (targetsOf s seq).2
    rwa [hitPhase_best] at h1

/-- Before the minimum display floor the tick cannot report a hit, cannot
count a completed move, and cannot newly enter celebration. -/
theorem updateSome_early (s : DanceTargetManager) (seq : DanceSequence)
    (dt : ℚ) (lh rh : Option (ℚ × ℚ))
    (hlt : s.move_timer + dt < s.min_display_time) :
    (updateSome s seq dt lh rh).2.hit = false ∧
      (updateSome s seq dt lh rh).1.moves_completed = s.moves_completed ∧
      (s.celebrating = false →
        (updateSome s seq dt lh rh).1.celebrating = false) := by
  rw [updateSome]
  split_ifs with hc
  · refine ⟨(celebrate_spec _ _).1, ?_, ?_⟩
    · rw [(celebrate_spec (tickTimers s dt) dt).2.2.2.2.2.2.2.2.2.2.1,
        (tickTimers_frame s dt).2.2.2.2.2.2.2.2.2.2.1]
    · intro h0
      rw [(tickTimers_frame s dt).2.1, h0] at hc
      exact absurd hc Bool.false_ne_true
  · have he := resolveMove_early seq
      (hitPhase s dt lh rh (targetsOf s seq).1 (targetsOf s seq).2)
      (hitPhasePop s dt lh rh (targetsOf s seq).1 (targetsOf s seq).2)
      (targetsOf s seq).1 (targetsOf s seq).2
      (by rw [hitPhase_move_timer, hitPhase_min_display]; exact hlt)
    refine ⟨he.1, ?_, ?_⟩
    · rw [he.2.1, hitPhase_completed]
    · intro h0
      rcases he.2.2 with hsame | hfalse
      · rw [hsame, hitPhase_celebrating]
        exact h0
      · exact hfalse

/-- Terminal invariant: once the index is past the end and the loop
counter has reached the limit, a tick keeps both conditions and, when the
manager is not celebrating, reports sequence_complete again. -/
theorem updateSome_end (s : DanceTargetManager) (seq : DanceSequence)
    (dt : ℚ) (lh rh : Option (ℚ × ℚ))
    (hidx : seq.moves.length ≤ s.current_move_index)
    (hloop : s.max_loops ≤ s.loop_count) :
    seq.moves.length ≤ (updateSome s seq dt lh rh).1.current_move_index ∧
      (updateSome s seq dt lh rh).1.max_loops
        ≤ (updateSome s seq dt lh rh).1.loop_count ∧
      (s.celebrating = false →
        (updateSome s seq dt lh rh).2.sequence_complete = true) := by
  rw [updateSome]
  split_ifs with hc
  · have hcs := celebrate_spec (tickTimers s dt) dt
    refine ⟨?_, ?_, ?_⟩
    · rcases hcs.2.2.2.2.2.2.2.2.2.2.2.2.1 with hi | hi <;>
        rw [hi, (tickTimers_frame s dt).2.2.2.1]
      · exact hidx
      · exact le_trans hidx (Nat.le_succ _)
    · rw [hcs.2.2.2.1, hcs.2.2.2.2.1,
        (tickTimers_frame s dt).2.2.2.2.2.2.1,
        (tickTimers_frame s dt).2.2.2.2.2.2.2.1]
      exact hloop
    · intro h0
      rw [(tickTimers_frame s dt).2.1, h0] at hc
      exact absurd hc Bool.false_ne_true
  · have he := resolveMove_end seq
      (hitPhase s dt lh rh (targetsOf s seq).1 (targetsOf s seq).2)
      (hitPhasePop s dt lh rh (targetsOf s seq).1 (targetsOf s seq).2)
      (targetsOf s seq).1 (targetsOf s seq).2
      (by rw [hitPhase_index]; exact hidx)
      (by rw [hitPhase_max_loops, hitPhase_loop_count]; exact hloop)
    exact ⟨he.2.1, he.2.2, fun _ => he.1⟩

/-- A tick keeps the loaded sequence. -/
theorem updateSome_sequence (s : DanceTargetManager) (seq : DanceSequence)
    (dt : ℚ) (lh rh : Option (ℚ × ℚ)) :
    (updateSome s seq dt lh rh).1.current_sequence = s.current_sequence := by
  rw [updateSome]
  split_ifs with hc
  · rw [(celebrate_spec (tickTimers s dt) dt).2.2.2.2.2.1]
    exact (tickTimers_frame s dt).2.2.1
  · rw [resolveMove_sequence]
    exact hitPhase_sequence s dt lh rh _ _

/-- A tick with nonnegative dt keeps the move timer nonnegative and never
touches the move timeout. -/
theorem updateSome_timer (s : DanceTargetManager) (seq : DanceSequence)
    (dt : ℚ) (lh rh : Option (ℚ × ℚ)) (hdt : 0 ≤ dt)
    (ht : 0 ≤ s.move_timer) :
    0 ≤ (updateSome s seq dt lh rh).1.move_timer ∧
      (updateSome s seq dt lh rh).1.move_timeout = s.move_timeout := by
  rw [updateSome]
  split_ifs with hc
  · constructor
    · rcases (celebrate_spec (tickTimers s dt) dt).2.2.2.2.2.2.2.2.2.2.2.2.2
        with hi | hi
      · rw [hi, (tickTimers_frame s dt).1]
        linarith
      · rw [hi]
    · rw [(celebrate_spec (tickTimers s dt) dt).2.2.2.2.2.2.1]
      exact (tickTimers_frame s dt).2.2.2.2.1
  · constructor
    · rcases resolveMove_timer seq
        (hitPhase s dt lh rh (targetsOf s seq).1 (targetsOf s seq).2)
        (hitPhasePop s dt lh rh (targetsOf s seq).1 (targetsOf s seq).2)
        (targetsOf s seq).1 (targetsOf s seq).2 with hi | hi
      · rw [hi, hitPhase_move_timer]
        linarith
      · rw [hi]
    · rw [resolveMove_timeout]
      exact hitPhase_timeout s dt lh rh _ _

/-- Per-call best-streak monotonicity at the update level. -/
theorem update_best_mono (s : DanceTargetManager) (dt : ℚ)
    (lh rh : Option (ℚ × ℚ)) :
    s.best_streak ≤ (update s dt lh rh).1.best_streak := by
  cases hseq : s.current_sequence with
  | none => rw [update_none s dt lh rh hseq]
  | some seq =>
      rw [update_some s seq dt lh rh hseq]
      exact updateSome_best_mono s seq dt lh rh

/-- C6: every miss event resets the current streak to zero within the same
tick, and the best streak never decreases, per tick and hence across every
run of update calls. -/
theorem C6_streak_invariant :
    (∀ (s : DanceTargetManager) (dt : ℚ) (lh rh : Option (ℚ × ℚ)),
        ((update s dt lh rh).2.miss = true →
          (update s dt lh rh).1.current_streak = 0) ∧
          s.best_streak ≤ (update s dt lh rh).1.best_streak) ∧
      (∀ (dt : ℚ) (lh rh : ℕ → Option (ℚ × ℚ)) (s : DanceTargetManager)
          (n m : ℕ), n ≤ m →
        (runMgr dt lh rh s n).best_streak
          ≤ (runMgr dt lh rh s m).best_streak) := by
  constructor
  · intro s dt lh rh
    constructor
    · intro hm
      cases hseq : s.current_sequence with
      | none =>
          rw [update_none s dt lh rh hseq] at hm
          exact Bool.noConfusion hm
      | some seq =>
          rw [update_some s seq dt lh rh hseq] at hm ⊢
          exact updateSome_miss_streak s seq dt lh rh hm
    · exact update_best_mono s dt lh rh
  · intro dt lh rh s n m hnm
    induction m with
    | zero =>
        rw [Nat.le_zero.mp hnm]
    | succ m ih =>
        rcases Nat.lt_succ_iff_lt_or_eq.mp (Nat.lt_succ_of_le hnm) with h | h
        · exact le_trans (ih (Nat.lt_succ_iff.mp h))
            (update_best_mono _ dt (lh m) (rh m))
        · rw [h]

/-- Shifting a run by one step: the state after n+1 calls from s equals
the state after n calls from the one-step successor, with the hand streams
shifted. -/
theorem runMgr_shift (dt : ℚ) (lh rh : ℕ → Option (ℚ × ℚ))
    (s : DanceTargetManager) (n : ℕ) :
    runMgr dt lh rh s (n + 1)
      = runMgr dt (fun j => lh (j + 1)) (fun j => rh (j + 1))
          (update s dt (lh 0) (rh 0)).1 n := by
  induction n with
  | zero => rfl
  | succ n ih =>
      show (update (runMgr dt lh rh s (n + 1)) dt (lh (n + 1)) (rh (n + 1))).1
        = _
      rw [ih]
      rfl

/-- Shifting the event stream of a run by one step. -/
theorem eventsAt_shift (dt : ℚ) (lh rh : ℕ → Option (ℚ × ℚ))
    (s : DanceTargetManager) (n : ℕ) :
    eventsAt dt lh rh s (n + 1)
      = eventsAt dt (fun j => lh (j + 1)) (fun j => rh (j + 1))
          (update s dt (lh 0) (rh 0)).1 n := by
  rw [eventsAt, eventsAt, runMgr_shift]

/-- Liveness kernel: from a non-celebrating state on an in-range move,
if k+1 further steps of size dt are enough to reach the timeout, some step
among them fires hit or miss. -/
theorem fires_within (dt : ℚ) :
    ∀ (k : ℕ) (lh rh : ℕ → Option (ℚ × ℚ)) (s : DanceTargetManager)
      (seq : DanceSequence),
      s.current_sequence = some seq →
      s.current_move_index < seq.moves.length →
      s.celebrating = false →
      s.move_timeout ≤ s.move_timer + ((k : ℚ) + 1) * dt →
      ∃ n, (eventsAt dt lh rh s n).hit = true ∨
        (eventsAt dt lh rh s n).miss = true := by
  intro k
  induction k with
  | zero =>
      intro lh rh s seq hseq hidx hcel hlate
      refine ⟨0, ?_⟩
      show (update s dt (lh 0) (rh 0)).2.hit = true ∨
        (update s dt (lh 0) (rh 0)).2.miss = true
      rw [update_some s seq dt _ _ hseq]
      apply updateSome_fires s seq dt _ _ hcel
      push_cast at hlate
      linarith
  | succ k ih =>
      intro lh rh s seq hseq hidx hcel hlate
      by_cases hfire : (eventsAt dt lh rh s 0).hit = true ∨
        (eventsAt dt lh rh s 0).miss = true
      · exact ⟨0, hfire⟩
      · push_neg at hfire
        have hh : (eventsAt dt lh rh s 0).hit = false :=
          Bool.eq_false_iff.mpr hfire.1
        have hm : (eventsAt dt lh rh s 0).miss = false :=
          Bool.eq_false_iff.mpr hfire.2
        have hE : eventsAt dt lh rh s 0 = (update s dt (lh 0) (rh 0)).2 := rfl
        rw [hE, update_some s seq dt _ _ hseq] at hh hm
        have hpres := updateSome_noFire s seq dt (lh 0) (rh 0) hcel hidx hh hm
        have hU : (update s dt (lh 0) (rh 0)).1
            = (updateSome s seq dt (lh 0) (rh 0)).1 := by
          rw [update_some s seq dt _ _ hseq]
        obtain ⟨n, hn⟩ := ih (fun j => lh (j + 1)) (fun j => rh (j + 1))
          (update s dt (lh 0) (rh 0)).1 seq
          (by rw [hU, hpres.2.2.2.1]; exact hseq)
          (by rw [hU, hpres.2.2.1]; exact hidx)
          (by rw [hU]; exact hpres.2.1)
          (by
            rw [hU, hpres.2.2.2.2.1, hpres.1]
            push_cast at hlate ⊢
            linarith)
        refine ⟨n + 1, ?_⟩
        rw [eventsAt_shift]
        exact hn

/-- Every reachable state has a nonnegative move timer and the constructed
5-second move timeout. -/
theorem reachable_timer_inv (s : DanceTargetManager) (h : Reachable s) :
    0 ≤ s.move_timer ∧ s.move_timeout = 5 := by
  induction h with
  | init w h => exact ⟨le_refl 0, rfl⟩
  | start t seq _ ih => exact ⟨le_refl 0, ih.2⟩
  | step t dt lh rh _ hdt ih =>
      cases hseq : t.current_sequence with
      | none =>
          rw [update_none t dt lh rh hseq]
          exact ih
      | some seq =>
          have ht := updateSome_timer t seq dt lh rh hdt ih.1
          rw [update_some t seq dt lh rh hseq]
          exact ⟨ht.1, ht.2.trans ih.2⟩

/-- C10: in every reachable manager state, get_time_remaining is
nonnegative and get_time_progress lies in the closed interval from 0 to 1,
even when the move timer exceeds the move timeout. -/
theorem C10_time_bounds (s : DanceTargetManager) (hs : Reachable s) :
    0 ≤ getTimeRemaining s ∧
      0 ≤ getTimeProgress s ∧ getTimeProgress s ≤ 1 := by
  obtain ⟨ht, hto⟩ := reachable_timer_inv s hs
  refine ⟨le_max_left 0 _, ?_, min_le_left 1 _⟩
  rw [getTimeProgress, hto]
  have h5 : 0 ≤ s.move_timer / 5 := by positivity
  exact le_min (by norm_num) h5

/-- Witness for C10 at the freshly constructed manager. -/
theorem C10_time_bounds_witness :
    0 ≤ getTimeRemaining (initState 800 600) ∧
      0 ≤ getTimeProgress (initState 800 600) ∧
      getTimeProgress (initState 800 600) ≤ 1 :=
  C10_time_bounds (initState 800 600) (Reachable.init 800 600)

/-- C7: per visit of a move, the hit and miss events are mutually
exclusive in a tick; a celebrating manager (the state between a hit and
the subsequent _next_move) emits neither again; a tick that emits neither
leaves the visit in place (same move index, still awaiting); and from any
non-celebrating in-range state, repeated updates with a fixed positive dt
eventually emit hit or miss, so each visit ends with exactly one of the
two. -/
theorem C7_exactly_one_per_visit :
    (∀ (s : DanceTargetManager) (dt : ℚ) (lh rh : Option (ℚ × ℚ)),
        ¬((update s dt lh rh).2.hit = true ∧
          (update s dt lh rh).2.miss = true)) ∧
      (∀ (s : DanceTargetManager) (dt : ℚ) (lh rh : Option (ℚ × ℚ)),
        s.celebrating = true →
          (update s dt lh rh).2.hit = false ∧
            (update s dt lh rh).2.miss = false) ∧
      (∀ (s : DanceTargetManager) (seq : DanceSequence) (dt : ℚ)
          (lh rh : Option (ℚ × ℚ)),
        s.current_sequence = some seq →
        s.current_move_index < seq.moves.length →
        s.celebrating = false →
        (update s dt lh rh).2.hit = false →
        (update s dt lh rh).2.miss = false →
          (update s dt lh rh).1.current_move_index = s.current_move_index ∧
            (update s dt lh rh).1.celebrating = false) ∧
      (∀ (dt : ℚ) (lh rh : ℕ → Option (ℚ × ℚ)) (s : DanceTargetManager)
          (seq : DanceSequence),
        0 < dt → s.current_sequence = some seq →
        s.current_move_index < seq.moves.length → s.celebrating = false →
          ∃ n, (eventsAt dt lh rh s n).hit = true ∨
            (eventsAt dt lh rh s n).miss = true) := by
  refine ⟨?_, ?_, ?_, ?_⟩
  · intro s dt lh rh
    cases hseq : s.current_sequence with
    | none =>
        rw [update_none s dt lh rh hseq]
        intro hx
        exact Bool.noConfusion hx.1
    | some seq =>
        rw [update_some s seq dt lh rh hseq]
        exact updateSome_not_both s seq dt lh rh
  · intro s dt lh rh hcel
    cases hseq : s.current_sequence with
    | none =>
        rw [update_none s dt lh rh hseq]
        exact ⟨rfl, rfl⟩
    | some seq =>
        rw [update_some s seq dt lh rh hseq]
        exact updateSome_celebrating s seq dt lh rh hcel
  · intro s seq dt lh rh hseq hidx hcel hh hm
    rw [update_some s seq dt lh rh hseq] at hh hm ⊢
    have hpres := updateSome_noFire s seq dt lh rh hcel hidx hh hm
    exact ⟨hpres.2.2.1, hpres.2.1⟩
  · intro dt lh rh s seq hdt hseq hidx hcel
    obtain ⟨k, hk⟩ := exists_nat_ge ((s.move_timeout - s.move_timer) / dt)
    apply fires_within dt k lh rh s seq hseq hidx hcel
    rw [div_le_iff hdt] at hk
    have hexp : ((k : ℚ) + 1) * dt = (k : ℚ) * dt + dt := by ring
    rw [hexp]
    linarith

/-- Witness for C7: mutual exclusion at the freshly started demo manager,
and liveness of the run that holds both hands on the demo target. -/
theorem C7_exactly_one_witness :
    (¬((update demoStart 1 none none).2.hit = true ∧
        (update demoStart 1 none none).2.miss = true)) ∧
      (∃ n, (eventsAt 1 handsOn handsOn demoStart n).hit = true ∨
        (eventsAt 1 handsOn handsOn demoStart n).miss = true) :=
  ⟨C7_exactly_one_per_visit.1 demoStart 1 none none,
    C7_exactly_one_per_visit.2.2.2 1 handsOn handsOn demoStart demoSeq
      (by norm_num) rfl
      (by norm_num [demoStart, startSequence, initState, demoSeq]) rfl⟩

/-- C1 (amended): once the index is past the end of the sequence and the
loop counter has reached the limit, no move is current (so no further
moves are evaluated), the state never re-enters the sequence, and every
further non-celebrating tick emits sequence_complete again — it is emitted
on the tick the counter reaches the limit but NOT exactly once if update
keeps being called. -/
theorem C1_loop_terminal (s : DanceTargetManager) (seq : DanceSequence)
    (dt : ℚ) (lh rh : Option (ℚ × ℚ))
    (hseq : s.current_sequence = some seq)
    (hidx : seq.moves.length ≤ s.current_move_index)
    (hloop : s.max_loops ≤ s.loop_count) :
    getCurrentMove s = none ∧
      seq.moves.length ≤ (update s dt lh rh).1.current_move_index ∧
      (update s dt lh rh).1.max_loops ≤ (update s dt lh rh).1.loop_count ∧
      (update s dt lh rh).1.current_sequence = some seq ∧
      (s.celebrating = false →
        (update s dt lh rh).2.sequence_complete = true) := by
  rw [update_some s seq dt lh rh hseq]
  have he := updateSome_end s seq dt lh rh hidx hloop
  refine ⟨?_, he.1, he.2.1, ?_, he.2.2⟩
  · rw [getCurrentMove, hseq]
    exact List.getElem?_eq_none hidx
  · rw [updateSome_sequence s seq dt lh rh]
    exact hseq

/-- Witness for the amended C1 theorem at the concrete terminal state of
the demo sequence (index 1 past the single move, loop counter at the
limit 2). -/
theorem C1_loop_terminal_witness :
    getCurrentMove
        { demoStart with current_move_index := 1, loop_count := 2 } = none ∧
      demoSeq.moves.length ≤
        (update { demoStart with current_move_index := 1, loop_count := 2 }
            1 none none).1.current_move_index ∧
      (update { demoStart with current_move_index := 1, loop_count := 2 }
          1 none none).1.max_loops ≤
        (update { demoStart with current_move_index := 1, loop_count := 2 }
            1 none none).1.loop_count ∧
      (update { demoStart with current_move_index := 1, loop_count := 2 }
          1 none none).1.current_sequence = some demoSeq ∧
      (({ demoStart with current_move_index := 1, loop_count := 2 }
          : DanceTargetManager).celebrating = false →
        (update { demoStart with current_move_index := 1, loop_count := 2 }
            1 none none).2.sequence_complete = true) :=
  C1_loop_terminal
    { demoStart with current_move_index := 1, loop_count := 2 }
    demoSeq 1 none none rfl
    (by norm_num [demoSeq])
    (by norm_num [demoStart, startSequence, initState])

set_option maxHeartbeats 1600000 in
/-- C1 counterexample: running the one-move demo sequence to completion
and continuing to call update, the sequence_complete event is emitted on
tick 8 (the tick the loop counter reaches the limit of 2) AND again on
tick 9 — refuting emission exactly once over the run. -/
theorem C1_counterexample :
    (eventsAt 1 handsOn handsOn demoStart 8).sequence_complete = true ∧
      (eventsAt 1 handsOn handsOn demoStart 9).sequence_complete = true := by
  have hs : ∀ (s : DanceTargetManager) (n : ℕ),
      runMgr 1 handsOn handsOn s (n + 1)
        = (update (runMgr 1 handsOn handsOn s n) 1
            (some (400, 300)) (some (400, 300))).1 := fun s n => rfl
  have h0 : runMgr 1 handsOn handsOn demoStart 0 = demoStart := rfl
  constructor
  · show (update (runMgr 1 handsOn handsOn demoStart 8) 1
      (handsOn 8) (handsOn 8)).2.sequence_complete = true
    rw [show (8:ℕ) = 7+1 from rfl, hs, show (7:ℕ) = 6+1 from rfl, hs,
      show (6:ℕ) = 5+1 from rfl, hs, show (5:ℕ) = 4+1 from rfl, hs,
      show (4:ℕ) = 3+1 from rfl, hs, show (3:ℕ) = 2+1 from rfl, hs,
      show (2:ℕ) = 1+1 from rfl, hs, show (1:ℕ) = 0+1 from rfl, hs, h0]
    norm_num [update, updateSome, tickTimers, celebrate, applyLeftHit,
      applyRightHit, hitPhase, hitPhasePop, resolveMove, seqCheck, nextMove,
      noEvents, targetsOf, movePositions, checkHandHit, truncQ, demoStart,
      startSequence, initState, demoSeq, demoMove, handsOn, Int.tdiv_one]
  · show (update (runMgr 1 handsOn handsOn demoStart 9) 1
      (handsOn 9) (handsOn 9)).2.sequence_complete = true
    rw [show (9:ℕ) = 8+1 from rfl, hs, show (8:ℕ) = 7+1 from rfl, hs,
      show (7:ℕ) = 6+1 from rfl, hs, show (6:ℕ) = 5+1 from rfl, hs,
      show (5:ℕ) = 4+1 from rfl, hs, show (4:ℕ) = 3+1 from rfl, hs,
      show (3:ℕ) = 2+1 from rfl, hs, show (2:ℕ) = 1+1 from rfl, hs,
      show (1:ℕ) = 0+1 from rfl, hs, h0]
    norm_num [update, updateSome, tickTimers, celebrate, applyLeftHit,
      applyRightHit, hitPhase, hitPhasePop, resolveMove, seqCheck, nextMove,
      noEvents, targetsOf, movePositions, checkHandHit, truncQ, demoStart,
      startSequence, initState, demoSeq, demoMove, handsOn, Int.tdiv_one]

set_option maxHeartbeats 1600000 in
/-- C3: a move is never marked satisfied while the post-increment move
timer is below the minimum display floor — no hit event, no completed
count, no entry into celebration — even with every defined target already
hit; and in the concrete scenario (floor 3.0, timeout 5.0, both hands on
target from the start with half-second ticks) both hands are registered at
t = 0.5 yet the hit fires exactly on the tick where the timer reaches 3.0
and not on any earlier tick. -/
theorem C3_min_display_floor :
    (∀ (s : DanceTargetManager) (seq : DanceSequence) (dt : ℚ)
        (lh rh : Option (ℚ × ℚ)),
      s.current_sequence = some seq →
      s.move_timer + dt < s.min_display_time →
        (update s dt lh rh).2.hit = false ∧
          (update s dt lh rh).1.moves_completed = s.moves_completed ∧
          (s.celebrating = false →
            (update s dt lh rh).1.celebrating = false)) ∧
      ((runMgr (1/2) handsOn handsOn demoStart 1).left_hand_hit = true ∧
        (runMgr (1/2) handsOn handsOn demoStart 1).right_hand_hit = true ∧
        (runMgr (1/2) handsOn handsOn demoStart 1).move_timer = 1/2) ∧
      ((eventsAt (1/2) handsOn handsOn demoStart 0).hit = false ∧
        (eventsAt (1/2) handsOn handsOn demoStart 1).hit = false ∧
        (eventsAt (1/2) handsOn handsOn demoStart 2).hit = false ∧
        (eventsAt (1/2) handsOn handsOn demoStart 3).hit = false ∧
        (eventsAt (1/2) handsOn handsOn demoStart 4).hit = false) ∧
      (eventsAt (1/2) handsOn handsOn demoStart 5).hit = true ∧
      (runMgr (1/2) handsOn handsOn demoStart 6).move_timer = 3 ∧
      (runMgr (1/2) handsOn handsOn demoStart 6).celebrating = true := by
  have hs : ∀ (s : DanceTargetManager) (n : ℕ),
      runMgr (1/2) handsOn handsOn s (n + 1)
        = (update (runMgr (1/2) handsOn handsOn s n) (1/2)
            (some (400, 300)) (some (400, 300))).1 := fun s n => rfl
  have h0 : runMgr (1/2) handsOn handsOn demoStart 0 = demoStart := rfl
  have hev : ∀ (n : ℕ),
      eventsAt (1/2) handsOn handsOn demoStart n
        = (update (runMgr (1/2) handsOn handsOn demoStart n) (1/2)
            (some (400, 300)) (some (400, 300))).2 := fun n => rfl
  refine ⟨?_, ?_, ?_, ?_, ?_, ?_⟩
  · intro s seq dt lh rh hseq hlt
    rw [update_some s seq dt lh rh hseq]
    exact updateSome_early s seq dt lh rh hlt
  · rw [show (1:ℕ) = 0+1 from rfl, hs, h0]
    norm_num [update, updateSome, tickTimers, celebrate, applyLeftHit,
      applyRightHit, hitPhase, hitPhasePop, resolveMove, seqCheck, nextMove,
      noEvents, targetsOf, movePositions, checkHandHit, truncQ, demoStart,
      startSequence, initState, demoSeq, demoMove, handsOn, Int.tdiv_one]
  · refine ⟨?_, ?_, ?_, ?_, ?_⟩
    · rw [hev, h0]
      norm_num [update, updateSome, tickTimers, celebrate, applyLeftHit,
        applyRightHit, hitPhase, hitPhasePop, resolveMove, seqCheck, nextMove,
        noEvents, targetsOf, movePositions, checkHandHit, truncQ, demoStart,
        startSequence, initState, demoSeq, demoMove, handsOn, Int.tdiv_one]
    · rw [hev, show (1:ℕ) = 0+1 from rfl, hs, h0]
      norm_num [update, updateSome, tickTimers, celebrate, applyLeftHit,
        applyRightHit, hitPhase, hitPhasePop, resolveMove, seqCheck, nextMove,
        noEvents, targetsOf, movePositions, checkHandHit, truncQ, demoStart,
        startSequence, initState, demoSeq, demoMove, handsOn, Int.tdiv_one]
    · rw [hev, show (2:ℕ) = 1+1 from rfl, hs, show (1:ℕ) = 0+1 from rfl,
        hs, h0]
      norm_num [update, updateSome, tickTimers, celebrate, applyLeftHit,
        applyRightHit, hitPhase, hitPhasePop, resolveMove, seqCheck, nextMove,
        noEvents, targetsOf, movePositions, checkHandHit, truncQ, demoStart,
        startSequence, initState, demoSeq, demoMove, handsOn, Int.tdiv_one]
    · rw [hev, show (3:ℕ) = 2+1 from rfl, hs, show (2:ℕ) = 1+1 from rfl, hs,
        show (1:ℕ) = 0+1 from rfl, hs, h0]
      norm_num [update, updateSome, tickTimers, celebrate, applyLeftHit,
        applyRightHit, hitPhase, hitPhasePop, resolveMove, seqCheck, nextMove,
        noEvents, targetsOf, movePositions, checkHandHit, truncQ, demoStart,
        startSequence, initState, demoSeq, demoMove, handsOn, Int.tdiv_one]
    · rw [hev, show (4:ℕ) = 3+1 from rfl, hs, show (3:ℕ) = 2+1 from rfl, hs,
        show (2:ℕ) = 1+1 from rfl, hs, show (1:ℕ) = 0+1 from rfl, hs, h0]
      norm_num [update, updateSome, tickTimers, celebrate, applyLeftHit,
        applyRightHit, hitPhase, hitPhasePop, resolveMove, seqCheck, nextMove,
        noEvents, targetsOf, movePositions, checkHandHit, truncQ, demoStart,
        startSequence, initState, demoSeq, demoMove, handsOn, Int.tdiv_one]
  · rw [hev]
    rw [show (5:ℕ) = 4+1 from rfl, hs, show (4:ℕ) = 3+1 from rfl, hs,
      show (3:ℕ) = 2+1 from rfl, hs, show (2:ℕ) = 1+1 from rfl, hs,
      show (1:ℕ) = 0+1 from rfl, hs, h0]
    norm_num [update, updateSome, tickTimers, celebrate, applyLeftHit,
      applyRightHit, hitPhase, hitPhasePop, resolveMove, seqCheck, nextMove,
      noEvents, targetsOf, movePositions, checkHandHit, truncQ, demoStart,
      startSequence, initState, demoSeq, demoMove, handsOn, Int.tdiv_one]
  · rw [show (6:ℕ) = 5+1 from rfl, hs, show (5:ℕ) = 4+1 from rfl, hs,
      show (4:ℕ) = 3+1 from rfl, hs, show (3:ℕ) = 2+1 from rfl, hs,
      show (2:ℕ) = 1+1 from rfl, hs, show (1:ℕ) = 0+1 from rfl, hs, h0]
    norm_num [update, updateSome, tickTimers, celebrate, applyLeftHit,
      applyRightHit, hitPhase, hitPhasePop, resolveMove, seqCheck, nextMove,
      noEvents, targetsOf, movePositions, checkHandHit, truncQ, demoStart,
      startSequence, initState, demoSeq, demoMove, handsOn, Int.tdiv_one]
  · rw [show (6:ℕ) = 5+1 from rfl, hs, show (5:ℕ) = 4+1 from rfl, hs,
      show (4:ℕ) = 3+1 from rfl, hs, show (3:ℕ) = 2+1 from rfl, hs,
      show (2:ℕ) = 1+1 from rfl, hs, show (1:ℕ) = 0+1 from rfl, hs, h0]
    norm_num [update, updateSome, tickTimers, celebrate, applyLeftHit,
      applyRightHit, hitPhase, hitPhasePop, resolveMove, seqCheck, nextMove,
      noEvents, targetsOf, movePositions, checkHandHit, truncQ, demoStart,
      startSequence, initState, demoSeq, demoMove, handsOn, Int.tdiv_one]

/-- Witness for C3 at the freshly started demo manager with a one-second
first tick (timer 1 below the 3-second floor). -/
theorem C3_min_display_floor_witness :
    (update demoStart 1 none none).2.hit = false ∧
      (update demoStart 1 none none).1.moves_completed
        = demoStart.moves_completed ∧
      (demoStart.celebrating = false →
        (update demoStart 1 none none).1.celebrating = false) :=
  C3_min_display_floor.1 demoStart demoSeq 1 none none rfl
    (by norm_num [demoStart, startSequence, initState])

set_option maxHeartbeats 1600000 in
/-- Witness for C6: a concrete per-tick instance (a real miss of the demo
move at the 5-second timeout with no hands, whose tick indeed leaves the
streak at zero) and a concrete run instance of best-streak monotonicity. -/
theorem C6_streak_invariant_witness :
    ((eventsAt 1 handsOff handsOff demoStart 4).miss = true ∧
      (runMgr 1 handsOff handsOff demoStart 5).current_streak = 0) ∧
      (runMgr 1 handsOn handsOn demoStart 0).best_streak
        ≤ (runMgr 1 handsOn handsOn demoStart 3).best_streak := by
  have hs : ∀ (s : DanceTargetManager) (n : ℕ),
      runMgr 1 handsOff handsOff s (n + 1)
        = (update (runMgr 1 handsOff handsOff s n) 1 none none).1 :=
    fun s n => rfl
  have h0 : runMgr 1 handsOff handsOff demoStart 0 = demoStart := rfl
  have hmiss : (eventsAt 1 handsOff handsOff demoStart 4).miss = true := by
    show (update (runMgr 1 handsOff handsOff demoStart 4) 1
      (handsOff 4) (handsOff 4)).2.miss = true
    rw [show (4:ℕ) = 3+1 from rfl, hs, show (3:ℕ) = 2+1 from rfl, hs,
      show (2:ℕ) = 1+1 from rfl, hs, show (1:ℕ) = 0+1 from rfl, hs, h0]
    norm_num [update, updateSome, tickTimers, celebrate, applyLeftHit,
      applyRightHit, hitPhase, hitPhasePop, resolveMove, seqCheck, nextMove,
      noEvents, targetsOf, movePositions, checkHandHit, truncQ, demoStart,
      startSequence, initState, demoSeq, demoMove, handsOff, Int.tdiv_one]
  refine ⟨⟨hmiss, ?_⟩, C6_streak_invariant.2 1 handsOn handsOn demoStart 0 3
    (by norm_num)⟩
  exact (C6_streak_invariant.1 (runMgr 1 handsOff handsOff demoStart 4) 1
    (handsOff 4) (handsOff 4)).1 hmiss

end DanceMode
